import Mathlib

/-!
Verification of the `CloudHarvester` session controller
(`src/cloud_harvester.py`) against its natural-language specification.

The Python class is shallowly embedded: each method becomes a pure Lean
function over an explicit `SessionState`, with the browser engine's
observations (page URL, title, whether a reload or navigation succeeds, the
clock, whether an external call raises) supplied as an environment record.
`time.time()` is modelled as a natural number; Python's truncating-to-false
comparison on negative differences coincides with `Nat` subtraction here
because both make `now - t > c` false whenever `now ≤ t`.
-/

namespace CloudHarvester

/-- `isPrefixOfChars pat l` is true when `pat` is a prefix of `l`. -/
def isPrefixOfChars : List Char → List Char → Bool
  | [], _ => true
  | _ :: _, [] => false
  | a :: as, b :: bs => a == b && isPrefixOfChars as bs

/-- `hasInfixChars pat l` is true when `pat` occurs contiguously in `l`. -/
def hasInfixChars (pat : List Char) : List Char → Bool
  | [] => isPrefixOfChars pat []
  | b :: bs => isPrefixOfChars pat (b :: bs) || hasInfixChars pat bs

/-- Substring containment, modelling Python's `pat in s`. -/
def strContains (s pat : String) : Bool :=
  hasInfixChars pat.toList s.toList

/-- The controller's mutable session fields
(`last_harvest_time`, `last_login_retry_time`, `refresh_needed`,
`restart_requested`, `is_running` in `CloudHarvester.__init__`). -/
structure SessionState where
  lastHarvestTime : Nat
  lastLoginRetryTime : Nat
  refreshNeeded : Bool
  restartRequested : Bool
  isRunning : Bool
  deriving Repr, DecidableEq

/-- Initial session fields set in `__init__`. -/
def initState : SessionState :=
  { lastHarvestTime := 0, lastLoginRetryTime := 0, refreshNeeded := false,
    restartRequested := false, isRunning := false }

/-! ### Response observer (`handle_response`) -/

/-- An inbound response as seen by `handle_response`: its URL and status. -/
structure ResponseEv where
  url : String
  status : Nat
  deriving Repr

/-- `handle_response`: marks `refresh_needed` when a `batchGraphql` response
carries status 401 or 403; otherwise leaves the state untouched.  The
Python body is wrapped in a bare `try/except: pass`, so the callback never
raises; the Lean embedding is a total function, which captures that. -/
def handle_response (st : SessionState) (r : ResponseEv) : SessionState :=
  if strContains r.url "batchGraphql" && (r.status == 401 || r.status == 403) then
    { st with refreshNeeded := true }
  else
    st

/-! ### Request interceptor (`handle_route`) -/

/-- An intercepted outbound request: URL, HTTP method, headers and the
optional POST body (`request.post_data`, `None` for bodyless requests). -/
structure RouteRequest where
  url : String
  httpMethod : String
  headers : List (String × String)
  postData : Option String
  deriving Repr

/-- Failure points inside `handle_route`'s `try` block: reading
`request.post_data` may raise, and `cred_manager.update` may raise. -/
structure RouteEnv where
  postDataFails : Bool
  sinkFails : Bool
  deriving Repr

/-- The artifact `handle_route` builds on a match
(`{"url": ..., "method": ..., "headers": ..., "body": ...}`). -/
structure HarvestArtifact where
  url : String
  httpMethod : String
  headers : List (String × String)
  body : String
  deriving Repr, DecidableEq

/-- Result of one `handle_route` invocation: the session state afterwards,
how many times `route.continue_()` was called, and the artifact forwarded
to the credential sink (if the forward completed). -/
structure RouteResult where
  state : SessionState
  continueCalls : Nat
  forwarded : Option HarvestArtifact
  deriving Repr

/-- Python truthiness of `post_data` combined with the marker test:
`post_data and ("StreamGenerateContent" in post_data or "generateContent" in post_data)`. -/
def bodyMatches (pd : Option String) : Bool :=
  match pd with
  | none => false
  | some s => !(s == "") && (strContains s "StreamGenerateContent" || strContains s "generateContent")

/-- `handle_route`: on a `batchGraphql` POST whose body carries a
generation marker, forwards the artifact to the credential sink, then
records `last_harvest_time = now` and resets `last_login_retry_time = 0`.
Any exception inside the `try` (post-data access, sink call) is caught and
logged.  `route.continue_()` runs after the `try/except`, unconditionally. -/
def handle_route (st : SessionState) (req : RouteRequest) (env : RouteEnv)
    (now : Nat) : RouteResult :=
  if strContains req.url "batchGraphql" && req.httpMethod == "POST" then
    if env.postDataFails then
      { state := st, continueCalls := 1, forwarded := none }
    else if bodyMatches req.postData then
      if env.sinkFails then
        { state := st, continueCalls := 1, forwarded := none }
      else
        { state := { st with lastHarvestTime := now, lastLoginRetryTime := 0 },
          continueCalls := 1,
          forwarded := some { url := req.url, httpMethod := req.httpMethod,
                              headers := req.headers,
                              body := req.postData.getD "" } }
    else
      { state := st, continueCalls := 1, forwarded := none }
  else
    { state := st, continueCalls := 1, forwarded := none }

/-! ### Interaction procedure (`perform_harvest`) -/

/-- Engine observations consumed by one `perform_harvest` run: whether
`self.page` is set, whether the terms dialog is visible and whether its
(unguarded) `page.evaluate` calls raise, whether the editor selector
becomes visible within the bounded wait, and whether the final
click/fill/press sequence raises. -/
structure HarvestEnv where
  pageAvailable : Bool
  dialogVisible : Bool
  dialogEvalFails : Bool
  editorVisible : Bool
  sendFails : Bool
  deriving Repr

/-- Result of one `perform_harvest` run: the session state afterwards and
whether the trigger text was actually submitted (Enter pressed). -/
structure HarvestResult where
  state : SessionState
  submitted : Bool
  deriving Repr

/-- `perform_harvest`: dismisses dialogs best-effort, waits for the editor
(5s bound; on timeout it logs and returns — the commented-out escalation of
`refresh_needed` is NOT active), then clicks, fills "Hello" and presses
Enter.  The whole body is wrapped in `try/except Exception`, and no path
assigns any of the session fields, so the state passes through unchanged. -/
def perform_harvest (st : SessionState) (env : HarvestEnv) : HarvestResult :=
  if !env.pageAvailable then
    { state := st, submitted := false }
  else if env.dialogVisible && env.dialogEvalFails then
    { state := st, submitted := false }
  else if !env.editorVisible then
    { state := st, submitted := false }
  else if env.sendFails then
    { state := st, submitted := false }
  else
    { state := st, submitted := true }

/-! ### Liveness loop (inner `while` of `start`, lines 78–116) -/

/-- Engine observations for one liveness-loop tick: current page URL and
title, the clock reading, whether `page.reload` succeeds (Case A), whether
`page.goto VERTEX_URL` succeeds (Case B), and the credential sink's
`latest_harvest` presence flag (Case C). -/
structure TickEnv where
  url : String
  title : String
  now : Nat
  reloadOk : Bool
  gotoOk : Bool
  latestHarvest : Bool
  deriving Repr

/-- Result of one liveness-loop tick.  `exitLoop` is the `break` of the
hard-expiry path; `reloadAttempted`/`navAttempted` record the engine calls
made; `refreshHarvest` is a `perform_harvest` invocation from the refresh
branch; `cadenceReached` records that the Case C condition was evaluated in
this tick, and `cadenceHarvest` that it invoked `perform_harvest`. -/
structure TickResult where
  state : SessionState
  exitLoop : Bool
  reloadAttempted : Bool
  navAttempted : Bool
  refreshHarvest : Bool
  cadenceReached : Bool
  cadenceHarvest : Bool
  deriving Repr, DecidableEq

/-- Case B's detection test:
`"accounts.google.com" in self.page.url or "Sign in" in await self.page.title()`. -/
def loginDetected (env : TickEnv) : Bool :=
  strContains env.url "accounts.google.com" || strContains env.title "Sign in"

/-- Case C's trigger test:
`time.time() - self.last_harvest_time > 2700 or not self.cred_manager.latest_harvest`. -/
def harvestDue (st : SessionState) (env : TickEnv) : Bool :=
  env.now - st.lastHarvestTime > 2700 || !env.latestHarvest

/-- Case C of the tick (`nav` records whether a Case B `goto` was attempted
earlier in the same tick before falling through). -/
def cadenceCase (st : SessionState) (env : TickEnv) (nav : Bool) : TickResult :=
  { state := st, exitLoop := false, reloadAttempted := false, navAttempted := nav,
    refreshHarvest := false, cadenceReached := true,
    cadenceHarvest := harvestDue st env }

/-- One tick of the liveness loop (`start`, lines 80–116).
Case A: `refresh_needed` → reload; on success clear the flag, sleep 5s and
call `perform_harvest`; a reload exception is caught before the flag is
cleared; either way `continue`.
Case B: login redirect detected → if more than 60s since the last retry,
record the retry time and `goto VERTEX_URL`; on success sleep and
`continue`, but if `goto` raises, `except Exception: pass` lets control
fall through to Case C in the same tick; at 60s or less, `break`.
Case C: if the harvest cadence test passes, call `perform_harvest`. -/
def livenessTick (st : SessionState) (env : TickEnv) : TickResult :=
  if st.refreshNeeded then
    if env.reloadOk then
      { state := { st with refreshNeeded := false }, exitLoop := false,
        reloadAttempted := true, navAttempted := false, refreshHarvest := true,
        cadenceReached := false, cadenceHarvest := false }
    else
      { state := st, exitLoop := false, reloadAttempted := true,
        navAttempted := false, refreshHarvest := false,
        cadenceReached := false, cadenceHarvest := false }
  else if loginDetected env then
    if env.now - st.lastLoginRetryTime > 60 then
      let st1 := { st with lastLoginRetryTime := env.now }
      if env.gotoOk then
        { state := st1, exitLoop := false, reloadAttempted := false,
          navAttempted := true, refreshHarvest := false,
          cadenceReached := false, cadenceHarvest := false }
      else
        cadenceCase st1 env true
    else
      { state := st, exitLoop := true, reloadAttempted := false,
        navAttempted := false, refreshHarvest := false,
        cadenceReached := false, cadenceHarvest := false }
  else
    cadenceCase st env false

/-- The liveness loop run over a finite trace of tick environments:
`while self.is_running and not self.restart_requested`, stopping early on
the hard-expiry `break`.  Returns the final session state and the number of
ticks executed. -/
def livenessRun (st : SessionState) : List TickEnv → SessionState × Nat
  | [] => (st, 0)
  | e :: es =>
    if st.isRunning && !st.restartRequested then
      let r := livenessTick st e
      if r.exitLoop then (r.state, 1)
      else
        let p := livenessRun r.state es
        (p.1, p.2 + 1)
    else (st, 0)

/-! ### Session loop (outer `while` of `start`, lines 42–124) -/

/-- The controller state visible to the outer loop: the session fields plus
`current_cookies` (the stored authentication material). -/
structure OuterState where
  session : SessionState
  currentCookies : Option String
  deriving Repr

/-- How one outer-loop iteration ended.
`malformedCookies`: `json.loads` raised `JSONDecodeError` — cookies
cleared, `sleep(10)`, `continue`.  `engineErrorCaught`: an exception
escaped to the iteration's catch-all — logged, `sleep(10)`.
`completed`: the liveness loop exited and the browser was closed. -/
inductive IterOutcome
  | malformedCookies
  | engineErrorCaught
  | completed
  deriving Repr, DecidableEq

/-- Engine behaviour for one outer-loop iteration: whether browser
launch/context creation raises, whether `json.loads` on the stored cookies
succeeds, whether `context.add_cookies` raises, whether the initial
`page.goto` succeeds (its failure is caught locally, lines 69–72), the tick
environments for the inner loop, whether an engine exception escapes the
liveness loop to the catch-all (e.g. `page.title()` raising), and whether
`browser.close()` raises. -/
structure IterEnv where
  launchFails : Bool
  cookieParseOk : Bool
  addCookiesFails : Bool
  navOk : Bool
  ticks : List TickEnv
  innerEscapeFails : Bool
  closeFails : Bool
  deriving Repr

/-- Result of one outer-loop iteration.  `navRaised` records that the
initial navigation raised (and was caught locally); `backoffSlept` records
an `asyncio.sleep(10)` backoff before the next iteration. -/
structure IterResult where
  outerState : OuterState
  outcome : IterOutcome
  livenessEntered : Bool
  navRaised : Bool
  backoffSlept : Bool
  deriving Repr

/-- The part of an iteration from page creation onward (lines 61–120): the
initial `goto` failure is caught locally and only logged, then
`restart_requested` and `refresh_needed` are reset and the liveness loop
runs; an exception escaping the inner loop, or one from `browser.close()`,
reaches the iteration's catch-all (backoff); otherwise the iteration
completes with no backoff. -/
def sessionBody (os : OuterState) (env : IterEnv) : IterResult :=
  let st0 := { os.session with restartRequested := false, refreshNeeded := false }
  let st1 := (livenessRun st0 env.ticks).1
  if env.innerEscapeFails then
    { outerState := { os with session := st1 }, outcome := .engineErrorCaught,
      livenessEntered := true, navRaised := !env.navOk, backoffSlept := true }
  else if env.closeFails then
    { outerState := { os with session := st1 }, outcome := .engineErrorCaught,
      livenessEntered := true, navRaised := !env.navOk, backoffSlept := true }
  else
    { outerState := { os with session := st1 }, outcome := .completed,
      livenessEntered := true, navRaised := !env.navOk, backoffSlept := false }

/-- One iteration of the outer session loop (lines 43–124).  Launch/context
failure hits the catch-all; with cookies present, a `json.loads` failure
clears them and backs off without entering the liveness loop, and an
`add_cookies` failure hits the catch-all; otherwise the iteration proceeds
into `sessionBody`. -/
def sessionIteration (os : OuterState) (env : IterEnv) : IterResult :=
  if env.launchFails then
    { outerState := os, outcome := .engineErrorCaught, livenessEntered := false,
      navRaised := false, backoffSlept := true }
  else
    match os.currentCookies with
    | some _ =>
      if !env.cookieParseOk then
        { outerState := { os with currentCookies := none },
          outcome := .malformedCookies, livenessEntered := false,
          navRaised := false, backoffSlept := true }
      else if env.addCookiesFails then
        { outerState := os, outcome := .engineErrorCaught,
          livenessEntered := false, navRaised := false, backoffSlept := true }
      else sessionBody os env
    | none => sessionBody os env

/-- The outer session loop over a finite trace of iteration environments:
`while self.is_running`, one `sessionIteration` per pass.  Returns the final
outer state and the number of iterations executed. -/
def sessionRun (os : OuterState) : List IterEnv → OuterState × Nat
  | [] => (os, 0)
  | e :: es =>
    if os.session.isRunning then
      let p := sessionRun (sessionIteration os e).outerState es
      (p.1, p.2 + 1)
    else (os, 0)

/-! ### Concrete inputs used by witnesses and counterexamples -/

/-- A live session with no prior capture and no pending flags. -/
def exState : SessionState :=
  { lastHarvestTime := 0, lastLoginRetryTime := 0, refreshNeeded := false,
    restartRequested := false, isRunning := true }

/-- A 401 response from the target endpoint. -/
def exResp : ResponseEv :=
  { url := "https://console.cloud.google.com/api/batchGraphql", status := 401 }

/-- A qualifying generation request. -/
def exMatchedReq : RouteRequest :=
  { url := "https://console.cloud.google.com/api/batchGraphql",
    httpMethod := "POST",
    headers := [("cookie", "SID=abc")],
    postData := some "payload StreamGenerateContent payload" }

/-- A route environment in which nothing raises. -/
def exRouteEnvOk : RouteEnv := { postDataFails := false, sinkFails := false }

/-- A route environment in which the credential sink's `update` raises. -/
def exRouteEnvSinkFail : RouteEnv := { postDataFails := false, sinkFails := true }

/-- A harvest environment whose editor never becomes visible. -/
def exHarvestEnvNoEditor : HarvestEnv :=
  { pageAvailable := true, dialogVisible := false, dialogEvalFails := false,
    editorVisible := false, sendFails := false }

/-- A login-redirect tick whose retry navigation raises. -/
def exTickLoginNavFail : TickEnv :=
  { url := "https://accounts.google.com/v3/signin", title := "Sign in - Google",
    now := 100, reloadOk := true, gotoOk := false, latestHarvest := false }

/-- A login-redirect tick whose retry navigation succeeds. -/
def exTickLoginNavOk : TickEnv :=
  { url := "https://accounts.google.com/v3/signin", title := "Sign in - Google",
    now := 100, reloadOk := true, gotoOk := true, latestHarvest := false }

/-- A second login-redirect detection 50s after `exTickLoginNavOk`. -/
def exTickLoginSecond : TickEnv :=
  { url := "https://accounts.google.com/v3/signin", title := "Sign in - Google",
    now := 150, reloadOk := true, gotoOk := true, latestHarvest := false }

/-- An ordinary tick on the Vertex page with the harvest cadence due. -/
def exTickIdle : TickEnv :=
  { url := "https://console.cloud.google.com/vertex-ai/studio", title := "Vertex AI",
    now := 3000, reloadOk := true, gotoOk := true, latestHarvest := false }

/-- A tick on the Vertex page with a refresh pending. -/
def exTickRefresh : TickEnv :=
  { url := "https://console.cloud.google.com/vertex-ai/studio", title := "Vertex AI",
    now := 3000, reloadOk := true, gotoOk := true, latestHarvest := true }

/-- An outer state holding stored cookie material. -/
def exOuterWithCookies : OuterState :=
  { session := exState, currentCookies := some "not a json array" }

/-- An outer state with no stored cookie material. -/
def exOuterNoCookies : OuterState :=
  { session := exState, currentCookies := none }

/-- An iteration whose only failure is the initial navigation raising. -/
def exIterNavFail : IterEnv :=
  { launchFails := false, cookieParseOk := true, addCookiesFails := false,
    navOk := false, ticks := [], innerEscapeFails := false, closeFails := false }

/-- An iteration in which `json.loads` on the stored cookies raises. -/
def exIterBadCookies : IterEnv :=
  { launchFails := false, cookieParseOk := false, addCookiesFails := false,
    navOk := true, ticks := [], innerEscapeFails := false, closeFails := false }

/-- An iteration in which an engine exception escapes the liveness loop. -/
def exIterInnerEscape : IterEnv :=
  { launchFails := false, cookieParseOk := true, addCookiesFails := false,
    navOk := true, ticks := [], innerEscapeFails := true, closeFails := false }

end CloudHarvester

namespace CloudHarvester

/-- C3: for every intercepted request, `handle_route` calls
`route.continue_()` exactly once — whether or not the request matches the
endpoint, method and body marker, and even when reading `post_data` or
calling the credential sink raises (those exceptions are caught inside the
`try`, and the `continue_` call sits after the `try/except`). -/
theorem claim_C3 (st : SessionState) (req : RouteRequest) (env : RouteEnv)
    (now : Nat) : (handle_route st req env now).continueCalls = 1 := by
  unfold handle_route
  repeat' split
  all_goals rfl

/-- C4: `handle_response` sets `refreshNeeded` exactly when the response's
URL contains `batchGraphql` and its status is 401 or 403; on any other
response it returns the state unchanged in every field.  The callback is a
total function, modelling the bare `try/except: pass` that keeps it from
throwing into the engine's event dispatch. -/
theorem claim_C4 (st : SessionState) (r : ResponseEv) :
    (strContains r.url "batchGraphql" = true ∧ (r.status = 401 ∨ r.status = 403) →
      handle_response st r = { st with refreshNeeded := true }) ∧
    (¬(strContains r.url "batchGraphql" = true ∧ (r.status = 401 ∨ r.status = 403)) →
      handle_response st r = st) := by
  constructor
  · rintro ⟨h1, h2⟩
    unfold handle_response
    rcases h2 with h2 | h2 <;> simp [h1, h2]
  · intro h
    have hb : (strContains r.url "batchGraphql" && (r.status == 401 || r.status == 403)) = false := by
      by_contra hb
      rw [Bool.not_eq_false, Bool.and_eq_true, Bool.or_eq_true, beq_iff_eq, beq_iff_eq] at hb
      exact h ⟨hb.1, hb.2⟩
    unfold handle_response
    simp [hb]

/-- Witness for C4 at a concrete 401 `batchGraphql` response. -/
theorem claim_C4_witness :
    handle_response exState exResp = { exState with refreshNeeded := true } :=
  (claim_C4 exState exResp).1 ⟨by decide, Or.inl rfl⟩

/-- C6: on a matched request (target endpoint, POST, generation marker in
the body) with a successful sink call, `handle_route` forwards the artifact
`{url, method, headers, body}` to the credential sink and then records
`lastHarvestTime = now` and resets `lastLoginRetryTime = 0`, leaving the
other session fields unchanged. -/
theorem claim_C6 (st : SessionState) (req : RouteRequest) (env : RouteEnv)
    (now : Nat)
    (hurl : strContains req.url "batchGraphql" = true)
    (hmethod : req.httpMethod = "POST")
    (hbody : bodyMatches req.postData = true)
    (hpd : env.postDataFails = false)
    (hsink : env.sinkFails = false) :
    (handle_route st req env now).forwarded =
      some { url := req.url, httpMethod := req.httpMethod,
             headers := req.headers, body := req.postData.getD "" } ∧
    (handle_route st req env now).state.lastHarvestTime = now ∧
    (handle_route st req env now).state.lastLoginRetryTime = 0 ∧
    (handle_route st req env now).state.refreshNeeded = st.refreshNeeded ∧
    (handle_route st req env now).state.restartRequested = st.restartRequested ∧
    (handle_route st req env now).state.isRunning = st.isRunning := by
  unfold handle_route
  simp [hurl, hmethod, hbody, hpd, hsink]

/-- Witness for C6 at a concrete qualifying request. -/
theorem claim_C6_witness :
    (handle_route exState exMatchedReq exRouteEnvOk 1234).forwarded =
      some { url := exMatchedReq.url, httpMethod := exMatchedReq.httpMethod,
             headers := exMatchedReq.headers,
             body := exMatchedReq.postData.getD "" } ∧
    (handle_route exState exMatchedReq exRouteEnvOk 1234).state.lastHarvestTime = 1234 ∧
    (handle_route exState exMatchedReq exRouteEnvOk 1234).state.lastLoginRetryTime = 0 ∧
    (handle_route exState exMatchedReq exRouteEnvOk 1234).state.refreshNeeded = exState.refreshNeeded ∧
    (handle_route exState exMatchedReq exRouteEnvOk 1234).state.restartRequested = exState.restartRequested ∧
    (handle_route exState exMatchedReq exRouteEnvOk 1234).state.isRunning = exState.isRunning :=
  claim_C6 exState exMatchedReq exRouteEnvOk 1234 (by decide) rfl (by decide) rfl rfl

/-- C10: if the credential sink's `update` raises while `handle_route`
processes a matched request, the exception is caught, no session field is
changed (in particular `lastHarvestTime` and `lastLoginRetryTime` keep
their old values, since the assignments follow the sink call), no artifact
forward completes, and `route.continue_()` is still called exactly once. -/
theorem claim_C10 (st : SessionState) (req : RouteRequest) (env : RouteEnv)
    (now : Nat)
    (hurl : strContains req.url "batchGraphql" = true)
    (hmethod : req.httpMethod = "POST")
    (hbody : bodyMatches req.postData = true)
    (hpd : env.postDataFails = false)
    (hsink : env.sinkFails = true) :
    (handle_route st req env now).state = st ∧
    (handle_route st req env now).continueCalls = 1 ∧
    (handle_route st req env now).forwarded = none := by
  unfold handle_route
  simp [hurl, hmethod, hbody, hpd, hsink]

/-- Witness for C10 at a concrete matched request with a failing sink. -/
theorem claim_C10_witness :
    (handle_route exState exMatchedReq exRouteEnvSinkFail 1234).state = exState ∧
    (handle_route exState exMatchedReq exRouteEnvSinkFail 1234).continueCalls = 1 ∧
    (handle_route exState exMatchedReq exRouteEnvSinkFail 1234).forwarded = none :=
  claim_C10 exState exMatchedReq exRouteEnvSinkFail 1234 (by decide) rfl (by decide) rfl rfl

/-- C9: when the editor selector never becomes visible within the bounded
wait, `perform_harvest` returns without submitting anything and with every
session field — in particular `refreshNeeded` — unchanged (the escalation
to `refresh_needed` is present only as a comment in the source). -/
theorem claim_C9 (st : SessionState) (env : HarvestEnv)
    (heditor : env.editorVisible = false) :
    (perform_harvest st env).state = st ∧
    (perform_harvest st env).submitted = false ∧
    (perform_harvest st env).state.refreshNeeded = st.refreshNeeded := by
  unfold perform_harvest
  repeat' split
  all_goals simp_all

/-- Witness for C9 at a concrete environment with an invisible editor. -/
theorem claim_C9_witness :
    (perform_harvest exState exHarvestEnvNoEditor).state = exState ∧
    (perform_harvest exState exHarvestEnvNoEditor).submitted = false ∧
    (perform_harvest exState exHarvestEnvNoEditor).state.refreshNeeded = exState.refreshNeeded :=
  claim_C9 exState exHarvestEnvNoEditor rfl

end CloudHarvester

namespace CloudHarvester

/-- C2: on a tick with `refreshNeeded` set, the refresh branch runs first:
on a successful reload the flag is cleared and `perform_harvest` is invoked
immediately; on a failed reload the state is fully unchanged.  Either way
the branch `continue`s, so the login-redirect and harvest branches never
run in that tick — even when the 2700s cadence is due — and the loop does
not exit. -/
theorem claim_C2 (st : SessionState) (env : TickEnv)
    (h : st.refreshNeeded = true) :
    (env.reloadOk = true →
      (livenessTick st env).state = { st with refreshNeeded := false } ∧
      (livenessTick st env).refreshHarvest = true) ∧
    (env.reloadOk = false →
      (livenessTick st env).state = st ∧
      (livenessTick st env).refreshHarvest = false) ∧
    (livenessTick st env).reloadAttempted = true ∧
    (livenessTick st env).navAttempted = false ∧
    (livenessTick st env).cadenceReached = false ∧
    (livenessTick st env).cadenceHarvest = false ∧
    (livenessTick st env).exitLoop = false := by
  unfold livenessTick
  cases hr : env.reloadOk <;> simp [h, hr]

/-- Witness for C2: pending refresh with the cadence due, successful reload. -/
theorem claim_C2_witness :
    (exTickRefresh.reloadOk = true →
      (livenessTick { exState with refreshNeeded := true } exTickRefresh).state =
        { { exState with refreshNeeded := true } with refreshNeeded := false } ∧
      (livenessTick { exState with refreshNeeded := true } exTickRefresh).refreshHarvest = true) ∧
    (exTickRefresh.reloadOk = false →
      (livenessTick { exState with refreshNeeded := true } exTickRefresh).state =
        { exState with refreshNeeded := true } ∧
      (livenessTick { exState with refreshNeeded := true } exTickRefresh).refreshHarvest = false) ∧
    (livenessTick { exState with refreshNeeded := true } exTickRefresh).reloadAttempted = true ∧
    (livenessTick { exState with refreshNeeded := true } exTickRefresh).navAttempted = false ∧
    (livenessTick { exState with refreshNeeded := true } exTickRefresh).cadenceReached = false ∧
    (livenessTick { exState with refreshNeeded := true } exTickRefresh).cadenceHarvest = false ∧
    (livenessTick { exState with refreshNeeded := true } exTickRefresh).exitLoop = false :=
  claim_C2 { exState with refreshNeeded := true } exTickRefresh rfl

/-- C5: on a tick where neither the refresh branch nor the login-redirect
branch applies, Case C is reached with the state untouched and invokes
`perform_harvest` exactly when more than 2700s have elapsed since the last
capture or the credential sink holds no harvest yet; in particular with
`lastHarvestTime = 0` and no capture yet it triggers on the very first
tick. -/
theorem claim_C5 (st : SessionState) (env : TickEnv)
    (h1 : st.refreshNeeded = false) (h2 : loginDetected env = false) :
    ((livenessTick st env).cadenceHarvest = true ↔
      (env.now - st.lastHarvestTime > 2700 ∨ env.latestHarvest = false)) ∧
    (livenessTick st env).cadenceReached = true ∧
    (livenessTick st env).state = st ∧
    (livenessTick st env).exitLoop = false ∧
    (env.latestHarvest = false → (livenessTick st env).cadenceHarvest = true) := by
  have hTick : livenessTick st env = cadenceCase st env false := by
    unfold livenessTick
    simp [h1, h2]
  refine ⟨?_, ?_, ?_, ?_, ?_⟩
  all_goals rw [hTick]
  all_goals simp [cadenceCase, harvestDue, Bool.or_eq_true, decide_eq_true_eq,
    Bool.not_eq_true']
  all_goals tauto

/-- Witness for C5: no prior capture, empty sink, first tick triggers. -/
theorem claim_C5_witness :
    (((livenessTick exState exTickIdle).cadenceHarvest = true ↔
      (exTickIdle.now - exState.lastHarvestTime > 2700 ∨ exTickIdle.latestHarvest = false)) ∧
    (livenessTick exState exTickIdle).cadenceReached = true ∧
    (livenessTick exState exTickIdle).state = exState ∧
    (livenessTick exState exTickIdle).exitLoop = false ∧
    (exTickIdle.latestHarvest = false → (livenessTick exState exTickIdle).cadenceHarvest = true)) :=
  claim_C5 exState exTickIdle rfl (by decide)

end CloudHarvester

namespace CloudHarvester

/-- C1 counterexample: a concrete tick meeting the claim's premise (login
redirect detected, no refresh pending, more than 60s since the last retry)
in which the retry `goto` raises: `except Exception: pass` swallows it and
control falls through to the harvest branch in the same tick, so the claim
that the branch "continues to the next tick without running any later
branch in that tick" is false at this input. -/
theorem claim_C1_counterexample :
    exState.refreshNeeded = false ∧
    loginDetected exTickLoginNavFail = true ∧
    exTickLoginNavFail.now - exState.lastLoginRetryTime > 60 ∧
    (livenessTick exState exTickLoginNavFail).state.lastLoginRetryTime =
      exTickLoginNavFail.now ∧
    (livenessTick exState exTickLoginNavFail).navAttempted = true ∧
    (livenessTick exState exTickLoginNavFail).cadenceReached = true ∧
    (livenessTick exState exTickLoginNavFail).cadenceHarvest = true ∧
    (livenessTick exState exTickLoginNavFail).exitLoop = false := by
  decide

/-- C1 (amended): on a tick with the login redirect detected and no refresh
pending: past the 60s cooldown the loop records the current time and
re-navigates; when the navigation succeeds it continues to the next tick
without running any later branch, but when it raises, the exception is
swallowed and the tick falls through to the harvest branch (the retry time
stays recorded).  At 60s or less the loop exits terminally with no
navigation; consequently, for two detections less than 60s apart whose
first retried successfully, the second produces the terminal exit, not
another retry navigation. -/
theorem claim_C1_amended (st : SessionState) (env env2 : TickEnv)
    (hrefresh : st.refreshNeeded = false)
    (hlogin : loginDetected env = true) :
    (env.now - st.lastLoginRetryTime > 60 →
      (livenessTick st env).state.lastLoginRetryTime = env.now ∧
      (livenessTick st env).navAttempted = true ∧
      (livenessTick st env).exitLoop = false ∧
      (env.gotoOk = true →
        (livenessTick st env).cadenceReached = false ∧
        (livenessTick st env).cadenceHarvest = false) ∧
      (env.gotoOk = false →
        (livenessTick st env).cadenceReached = true)) ∧
    (env.now - st.lastLoginRetryTime ≤ 60 →
      (livenessTick st env).state = st ∧
      (livenessTick st env).exitLoop = true ∧
      (livenessTick st env).navAttempted = false ∧
      (livenessTick st env).cadenceReached = false) ∧
    (env.now - st.lastLoginRetryTime > 60 → env.gotoOk = true →
     loginDetected env2 = true → env2.now - env.now ≤ 60 →
      (livenessTick (livenessTick st env).state env2).exitLoop = true ∧
      (livenessTick (livenessTick st env).state env2).navAttempted = false) := by
  refine ⟨?_, ?_, ?_⟩
  · intro h60
    cases hg : env.gotoOk
    · unfold livenessTick
      simp [hrefresh, hlogin, h60, hg, cadenceCase]
    · unfold livenessTick
      simp [hrefresh, hlogin, h60, hg]
  · intro h60
    have hn : ¬ (env.now - st.lastLoginRetryTime > 60) := by omega
    unfold livenessTick
    simp [hrefresh, hlogin, hn]
  · intro h60 hg hlogin2 hle
    have hstate : (livenessTick st env).state =
        { st with lastLoginRetryTime := env.now } := by
      unfold livenessTick
      simp [hrefresh, hlogin, h60, hg]
    rw [hstate]
    have hn2 : ¬ (env2.now - env.now > 60) := by omega
    unfold livenessTick
    simp [hrefresh, hlogin2, hn2]

/-- Witness for the amended C1: a successful retry at t=100 followed by a
second detection at t=150 produces the terminal exit. -/
theorem claim_C1_amended_witness :
    (livenessTick exState exTickLoginNavOk).state.lastLoginRetryTime =
      exTickLoginNavOk.now ∧
    (livenessTick exState exTickLoginNavOk).navAttempted = true ∧
    (livenessTick exState exTickLoginNavOk).cadenceReached = false ∧
    (livenessTick (livenessTick exState exTickLoginNavOk).state exTickLoginSecond).exitLoop = true ∧
    (livenessTick (livenessTick exState exTickLoginNavOk).state exTickLoginSecond).navAttempted = false := by
  have h := claim_C1_amended exState exTickLoginNavOk exTickLoginSecond rfl (by decide)
  refine ⟨(h.1 (by decide)).1, (h.1 (by decide)).2.1,
    ((h.1 (by decide)).2.2.2.1 rfl).1,
    (h.2.2 (by decide) rfl (by decide) (by decide)).1,
    (h.2.2 (by decide) rfl (by decide) (by decide)).2⟩

/-- C7: with stored cookie material whose `json.loads` raises, the
iteration (after a successful launch) clears the material, backs off, and
moves to the next outer-loop pass without entering the liveness loop and
without touching the session fields — the loop does not crash. -/
theorem claim_C7 (os : OuterState) (env : IterEnv) (s : String)
    (hc : os.currentCookies = some s)
    (hparse : env.cookieParseOk = false)
    (hlaunch : env.launchFails = false) :
    (sessionIteration os env).outerState.currentCookies = none ∧
    (sessionIteration os env).outerState.session = os.session ∧
    (sessionIteration os env).outcome = .malformedCookies ∧
    (sessionIteration os env).livenessEntered = false ∧
    (sessionIteration os env).backoffSlept = true := by
  unfold sessionIteration
  rw [hc]
  simp [hlaunch, hparse]

/-- Witness for C7 at concrete malformed cookie material. -/
theorem claim_C7_witness :
    (sessionIteration exOuterWithCookies exIterBadCookies).outerState.currentCookies = none ∧
    (sessionIteration exOuterWithCookies exIterBadCookies).outerState.session =
      exOuterWithCookies.session ∧
    (sessionIteration exOuterWithCookies exIterBadCookies).outcome = .malformedCookies ∧
    (sessionIteration exOuterWithCookies exIterBadCookies).livenessEntered = false ∧
    (sessionIteration exOuterWithCookies exIterBadCookies).backoffSlept = true :=
  claim_C7 exOuterWithCookies exIterBadCookies "not a json array" rfl rfl rfl

/-- No liveness-loop tick assigns `is_running`. -/
theorem livenessTick_isRunning (st : SessionState) (env : TickEnv) :
    (livenessTick st env).state.isRunning = st.isRunning := by
  unfold livenessTick cadenceCase
  repeat' split
  all_goals rfl

/-- The liveness loop preserves `is_running` over any trace. -/
theorem livenessRun_isRunning (ticks : List TickEnv) (st : SessionState) :
    ((livenessRun st ticks).1).isRunning = st.isRunning := by
  induction ticks generalizing st with
  | nil => rfl
  | cons e es ih =>
    unfold livenessRun
    by_cases hc : (st.isRunning && !st.restartRequested) = true
    · rw [if_pos hc]
      by_cases hex : (livenessTick st e).exitLoop = true
      · rw [if_pos hex]
        exact livenessTick_isRunning st e
      · rw [if_neg hex]
        show ((livenessRun (livenessTick st e).state es).1).isRunning = st.isRunning
        rw [ih, livenessTick_isRunning]
    · rw [if_neg hc]

/-- No outer-loop iteration assigns `is_running`: stopping is external. -/
theorem sessionIteration_isRunning (os : OuterState) (env : IterEnv) :
    (sessionIteration os env).outerState.session.isRunning = os.session.isRunning := by
  unfold sessionIteration sessionBody
  repeat' split
  all_goals simp [livenessRun_isRunning]

/-- While `is_running` holds, the outer loop executes every iteration of a
trace — no iteration outcome, error or not, terminates it. -/
theorem sessionRun_length (envs : List IterEnv) (os : OuterState)
    (h : os.session.isRunning = true) :
    (sessionRun os envs).2 = envs.length := by
  induction envs generalizing os with
  | nil => rfl
  | cons e es ih =>
    have h2 : (sessionIteration os e).outerState.session.isRunning = true := by
      rw [sessionIteration_isRunning]
      exact h
    unfold sessionRun
    rw [if_pos h]
    show (sessionRun (sessionIteration os e).outerState es).2 + 1 = es.length + 1
    rw [ih _ h2]

/-- C8 counterexample: an iteration whose only exception is the initial
navigation raising.  The exception is caught by the local `try/except`
around `page.goto` (lines 69–72), the iteration proceeds into the liveness
loop, and no backoff sleep follows — contradicting the claim that any
exception raised during navigation is followed by a fixed backoff sleep
before the next iteration. -/
theorem claim_C8_counterexample :
    (sessionIteration exOuterNoCookies exIterNavFail).navRaised = true ∧
    (sessionIteration exOuterNoCookies exIterNavFail).outcome = .completed ∧
    (sessionIteration exOuterNoCookies exIterNavFail).backoffSlept = false ∧
    (sessionIteration exOuterNoCookies exIterNavFail).livenessEntered = true := by
  decide

/-- C8 (amended): any exception that escapes to the iteration's catch-all
(context creation, cookie injection, the liveness loop, teardown) is caught
and followed by the fixed backoff sleep, as is the malformed-cookie
backoff; an exception during the initial navigation is instead caught
locally, only logged, and the iteration proceeds into the liveness loop
with no backoff.  `is_running` is never assigned by an iteration, and the
outer loop runs every iteration while it holds — it terminates only when
`running` is false by an external stop, never because of an engine error. -/
theorem claim_C8_amended (os : OuterState) (env : IterEnv) (envs : List IterEnv) :
    ((sessionIteration os env).outcome = .engineErrorCaught →
      (sessionIteration os env).backoffSlept = true) ∧
    ((sessionIteration os env).outcome = .malformedCookies →
      (sessionIteration os env).backoffSlept = true) ∧
    (sessionIteration os env).outerState.session.isRunning = os.session.isRunning ∧
    (os.session.isRunning = true → (sessionRun os envs).2 = envs.length) ∧
    (os.session.isRunning = false → (sessionRun os envs).2 = 0) ∧
    (env.launchFails = false → env.cookieParseOk = true →
     env.addCookiesFails = false → env.innerEscapeFails = false →
     env.closeFails = false → env.navOk = false →
      (sessionIteration os env).navRaised = true ∧
      (sessionIteration os env).outcome = .completed ∧
      (sessionIteration os env).backoffSlept = false ∧
      (sessionIteration os env).livenessEntered = true) := by
  refine ⟨?_, ?_, sessionIteration_isRunning os env,
    fun h => sessionRun_length envs os h, ?_, ?_⟩
  · unfold sessionIteration sessionBody
    repeat' split
    all_goals simp
  · unfold sessionIteration sessionBody
    repeat' split
    all_goals simp
  · intro h
    cases envs with
    | nil => rfl
    | cons e es =>
      have hn : ¬ (os.session.isRunning = true) := by simp [h]
      unfold sessionRun
      rw [if_neg hn]
  · intro h1 h2 h3 h4 h5 h6
    cases hcook : os.currentCookies with
    | none =>
      unfold sessionIteration sessionBody
      simp [h1, h2, h3, h4, h5, h6, hcook]
    | some s =>
      unfold sessionIteration sessionBody
      simp [h1, h2, h3, h4, h5, h6, hcook]

/-- Witness for the amended C8: a caught escaping error backs off, a
two-iteration trace (one escaping error, one navigation failure) runs to
completion, and the navigation-failure iteration completes with no
backoff. -/
theorem claim_C8_amended_witness :
    (sessionIteration exOuterNoCookies exIterInnerEscape).backoffSlept = true ∧
    (sessionRun exOuterNoCookies [exIterInnerEscape, exIterNavFail]).2 = 2 ∧
    (sessionIteration exOuterNoCookies exIterNavFail).outcome = .completed ∧
    (sessionIteration exOuterNoCookies exIterNavFail).backoffSlept = false := by
  have h1 := claim_C8_amended exOuterNoCookies exIterInnerEscape
    [exIterInnerEscape, exIterNavFail]
  have h2 := claim_C8_amended exOuterNoCookies exIterNavFail []
  refine ⟨h1.1 (by decide), h1.2.2.2.1 rfl, ?_, ?_⟩
  · exact (h2.2.2.2.2.2 rfl rfl rfl rfl rfl rfl).2.1
  · exact (h2.2.2.2.2.2 rfl rfl rfl rfl rfl rfl).2.2.1

end CloudHarvester
